import Mathlib

/-!
# Verification of the global-shortcut component

Shallow embedding of `src/tauri/src-tauri/src/global_shortcut.rs`.

The component keeps one optional shortcut string (`current_shortcut`,
a `Mutex<Option<String>>` in the Rust struct `GlobalShortcutState`) and
exposes three command handlers:

* `register_global_hotkey` — best-effort cleanup of any previously stored
  shortcut, then parse / install-handler / OS-register the new one;
* `unregister_global_hotkey` — re-parse the stored string, remove its
  handler, unregister it, clear the stored string;
* `get_current_hotkey` — return a copy of the stored string.

The OS global-shortcut subsystem (the `tauri_plugin_global_shortcut`
collaborator) is modelled abstractly: shortcut descriptors are an
arbitrary type `Sc`, the parser is a function
`parse : String → Except String Sc`, and every fallible OS call
(`on_shortcut`, `register`, `unregister`) gets its outcome from an
explicit outcome record, so a single invocation of an operation is a
pure function of the state, the outcomes and the arguments.  The state
of the OS subsystem, as far as this component drives it, is the set of
shortcuts currently registered by the component and the set of shortcuts
whose installed callback is the event-emitting one.
-/

deriving instance DecidableEq for Except

namespace GlobalShortcut

/-- The two kinds of callback closures the component ever installs with
`on_shortcut`: the no-op `|_, _, _| {}` used while removing a handler, and
the press/release event emitter installed by `register_global_hotkey`. -/
inductive HandlerKind
  | noop
  | emitter
deriving DecidableEq, Repr

/-- `ShortcutState` from `tauri_plugin_global_shortcut`: the discriminant of a
press/release notification delivered to an installed callback. -/
inductive ShortcutState
  | Pressed
  | Released
deriving DecidableEq, Repr

/-- The list of event names a callback of the given kind emits on the
Application Event Bus for one notification (each event is emitted with the
unit payload `()`, i.e. no payload).  Mirrors the `match event.state()` body
of the closure in `register_global_hotkey`. -/
def handlerEmits : HandlerKind → ShortcutState → List String
  | .noop, _ => []
  | .emitter, .Pressed => ["hotkey-pressed"]
  | .emitter, .Released => ["hotkey-released"]

/-- The Rust error struct `HotkeyError { message: String }`. -/
structure HotkeyError where
  message : String
deriving DecidableEq, Repr

/-- One call made to the OS shortcut subsystem, recorded in a trace so that
"performs no OS-subsystem calls" is statable. -/
inductive OSCall (Sc : Type)
  | parseCall (s : String)
  | onShortcutCall (sc : Sc) (k : HandlerKind)
  | registerCall (sc : Sc)
  | unregisterCall (sc : Sc)
deriving DecidableEq, Repr

/-- Combined state: the component's `current_shortcut` field plus the modelled
OS-subsystem state this component drives (`registered`: the set of shortcuts
currently registered by this component; `emitters`: the shortcuts whose
installed callback is the emitting one). -/
structure SysState (Sc : Type) where
  current_shortcut : Option String
  registered : Finset Sc
  emitters : Finset Sc
deriving DecidableEq

/-- Initial state: `GlobalShortcutState::new()` stores `None`, and the
component has registered nothing with the OS. -/
def initState (Sc : Type) : SysState Sc :=
  { current_shortcut := none, registered := ∅, emitters := ∅ }

/-- Outcomes of the four fallible OS calls a single `register_global_hotkey`
invocation can make (each may succeed or fail, the error carrying the detail
string the code interpolates into its messages). -/
structure RegOutcomes where
  cleanup_on_shortcut : Except String Unit
  cleanup_unregister : Except String Unit
  new_on_shortcut : Except String Unit
  new_register : Except String Unit
deriving DecidableEq, Repr

/-- Outcomes of the two fallible OS calls a single `unregister_global_hotkey`
invocation can make. -/
structure UnregOutcomes where
  remove_handler : Except String Unit
  os_unregister : Except String Unit
deriving DecidableEq, Repr

/-- Result of one operation: the `Result` value returned to the caller, the
state afterwards, and the trace of OS-subsystem calls made. -/
structure OpResult (Sc : Type) (α : Type) where
  res : Except HotkeyError α
  state : SysState Sc
  calls : List (OSCall Sc)
deriving DecidableEq

variable {Sc : Type} [DecidableEq Sc]

/-- The "Unregister existing shortcut if any" block at the top of
`register_global_hotkey`: if a shortcut string is stored and re-parses, the
code calls `on_shortcut(sc, |_,_,_| {})` and `unregister(sc)` and discards
both results (`let _ = ...`).  Returns the state afterwards and the calls
made. -/
def cleanupExisting (parse : String → Except String Sc) (o : RegOutcomes)
    (s : SysState Sc) : SysState Sc × List (OSCall Sc) :=
  match s.current_shortcut with
  | none => (s, [])
  | some existing =>
    match parse existing with
    | .error _ => (s, [.parseCall existing])
    | .ok sc =>
      let s1 : SysState Sc :=
        match o.cleanup_on_shortcut with
        | .ok _ => { s with emitters := s.emitters.erase sc }
        | .error _ => s
      let s2 : SysState Sc :=
        match o.cleanup_unregister with
        | .ok _ => { s1 with registered := s1.registered.erase sc }
        | .error _ => s1
      (s2, [.parseCall existing, .onShortcutCall sc .noop, .unregisterCall sc])

/-- `register_global_hotkey(app, state, shortcut)`:
1. lock `current_shortcut`;
2. best-effort cleanup of any stored shortcut (errors discarded);
3. `shortcut.parse::<Shortcut>()`, failing with
   `"Invalid shortcut format: {e}"`;
4. `on_shortcut(parsed, emitter-closure)`, failing with
   `"Failed to register shortcut: {e}"`;
5. `register(parsed)`, failing with `"Failed to register shortcut: {e}"`;
6. on full success store `Some(shortcut)`. -/
def register_global_hotkey (parse : String → Except String Sc) (o : RegOutcomes)
    (shortcut : String) (s : SysState Sc) : OpResult Sc Unit :=
  let c := cleanupExisting parse o s
  let s1 := c.1
  let tr := c.2
  match parse shortcut with
  | .error e =>
    { res := .error ⟨"Invalid shortcut format: " ++ e⟩, state := s1,
      calls := tr ++ [.parseCall shortcut] }
  | .ok psc =>
    match o.new_on_shortcut with
    | .error e =>
      { res := .error ⟨"Failed to register shortcut: " ++ e⟩, state := s1,
        calls := tr ++ [.parseCall shortcut, .onShortcutCall psc .emitter] }
    | .ok _ =>
      let s2 : SysState Sc := { s1 with emitters := insert psc s1.emitters }
      match o.new_register with
      | .error e =>
        { res := .error ⟨"Failed to register shortcut: " ++ e⟩, state := s2,
          calls := tr ++ [.parseCall shortcut, .onShortcutCall psc .emitter,
                          .registerCall psc] }
      | .ok _ =>
        { res := .ok (),
          state := { s2 with registered := insert psc s2.registered,
                             current_shortcut := some shortcut },
          calls := tr ++ [.parseCall shortcut, .onShortcutCall psc .emitter,
                          .registerCall psc] }

/-- `unregister_global_hotkey(app, state)`: if nothing is stored, return `Ok`
without touching the OS.  Otherwise re-parse the stored string; if it parses,
remove the handler (failing with `"Failed to remove handler: {e}"`) and
unregister (failing with `"Failed to unregister: {e}"`).  The assignment
`*current = None` sits inside the `if let Some` block but OUTSIDE the
`if let Ok` parse branch, so it also runs when the stored string fails to
re-parse. -/
def unregister_global_hotkey (parse : String → Except String Sc)
    (o : UnregOutcomes) (s : SysState Sc) : OpResult Sc Unit :=
  match s.current_shortcut with
  | none => { res := .ok (), state := s, calls := [] }
  | some shortcut_str =>
    match parse shortcut_str with
    | .error _ =>
      { res := .ok (), state := { s with current_shortcut := none },
        calls := [.parseCall shortcut_str] }
    | .ok shortcut =>
      match o.remove_handler with
      | .error e =>
        { res := .error ⟨"Failed to remove handler: " ++ e⟩, state := s,
          calls := [.parseCall shortcut_str, .onShortcutCall shortcut .noop] }
      | .ok _ =>
        let s1 : SysState Sc := { s with emitters := s.emitters.erase shortcut }
        match o.os_unregister with
        | .error e =>
          { res := .error ⟨"Failed to unregister: " ++ e⟩, state := s1,
            calls := [.parseCall shortcut_str, .onShortcutCall shortcut .noop,
                      .unregisterCall shortcut] }
        | .ok _ =>
          { res := .ok (),
            state := { s1 with registered := s1.registered.erase shortcut,
                               current_shortcut := none },
            calls := [.parseCall shortcut_str, .onShortcutCall shortcut .noop,
                      .unregisterCall shortcut] }

/-- `get_current_hotkey(state)`: lock and return `Ok(current.clone())`. -/
def get_current_hotkey (s : SysState Sc) : OpResult Sc (Option String) :=
  { res := .ok s.current_shortcut, state := s, calls := [] }

/-- Concrete OS-parser instance used for witnesses and counterexamples: a
string parses to itself when it contains a plus sign, and is rejected with a
detail message otherwise. -/
def parsePlus : String → Except String String := fun s =>
  if '+' ∈ s.data then .ok s else .error ("unknown key " ++ s)

/-- Outcome record in which every OS call succeeds. -/
def oAllOk : RegOutcomes :=
  { cleanup_on_shortcut := .ok (), cleanup_unregister := .ok (),
    new_on_shortcut := .ok (), new_register := .ok () }

/-- Outcome record in which only the best-effort cleanup `unregister` call
fails. -/
def oCleanupUnregFail : RegOutcomes :=
  { cleanup_on_shortcut := .ok (), cleanup_unregister := .error "busy",
    new_on_shortcut := .ok (), new_register := .ok () }

/-- Unregister outcomes: both OS calls succeed. -/
def uAllOk : UnregOutcomes := { remove_handler := .ok (), os_unregister := .ok () }

/-- Unregister outcomes: the handler-removal call fails. -/
def uRemoveFail : UnregOutcomes :=
  { remove_handler := .error "no handler", os_unregister := .ok () }

/-- Unregister outcomes: handler removal succeeds, the OS `unregister` call
fails. -/
def uUnregFail : UnregOutcomes :=
  { remove_handler := .ok (), os_unregister := .error "os busy" }

/-- State after one fully successful registration of `"Ctrl+A"`. -/
def s1A : SysState String :=
  (register_global_hotkey parsePlus oAllOk "Ctrl+A" (initState String)).state

/-- State after additionally registering `"Ctrl+B"` while the best-effort
cleanup `unregister` call for `"Ctrl+A"` fails: both shortcuts end up
registered with the OS. -/
def s2AB : SysState String :=
  (register_global_hotkey parsePlus oCleanupUnregFail "Ctrl+B" s1A).state

/-- A state whose stored shortcut string does not re-parse under
`parsePlus`. -/
def sBadStored : SysState String :=
  { current_shortcut := some "bad", registered := ∅, emitters := ∅ }

/-- States reachable from the initial state by any sequence of the three
command handlers, with arbitrary arguments and arbitrary OS-call outcomes. -/
inductive Reachable (parse : String → Except String Sc) : SysState Sc → Prop
  | init : Reachable parse (initState Sc)
  | reg (s : SysState Sc) (o : RegOutcomes) (str : String) :
      Reachable parse s →
      Reachable parse (register_global_hotkey parse o str s).state
  | unreg (s : SysState Sc) (o : UnregOutcomes) :
      Reachable parse s →
      Reachable parse (unregister_global_hotkey parse o s).state
  | query (s : SysState Sc) :
      Reachable parse s →
      Reachable parse (get_current_hotkey s).state

/-- States reachable when the best-effort cleanup `unregister` call inside
each `register_global_hotkey` invocation succeeds (all other OS calls may
still succeed or fail arbitrarily). -/
inductive CleanReach (parse : String → Except String Sc) : SysState Sc → Prop
  | init : CleanReach parse (initState Sc)
  | reg (s : SysState Sc) (o : RegOutcomes) (str : String) :
      o.cleanup_unregister = .ok () →
      CleanReach parse s →
      CleanReach parse (register_global_hotkey parse o str s).state
  | unreg (s : SysState Sc) (o : UnregOutcomes) :
      CleanReach parse s →
      CleanReach parse (unregister_global_hotkey parse o s).state
  | query (s : SysState Sc) :
      CleanReach parse s →
      CleanReach parse (get_current_hotkey s).state

/-- Sync invariant: every shortcut this component has registered with the OS
is the parse of the currently stored string. -/
def Inv (parse : String → Except String Sc) (s : SysState Sc) : Prop :=
  ∀ sc ∈ s.registered,
    ∃ str, s.current_shortcut = some str ∧ parse str = .ok sc

omit [DecidableEq Sc] in
theorem inv_card_le_one {parse : String → Except String Sc} {s : SysState Sc}
    (h : Inv parse s) : s.registered.card ≤ 1 := by
  refine Finset.card_le_one.2 fun a ha b hb => ?_
  obtain ⟨sa, hsa, hpa⟩ := h a ha
  obtain ⟨sb, hsb, hpb⟩ := h b hb
  rw [hsa] at hsb
  injection hsb with h'
  subst h'
  rw [hpa] at hpb
  exact Except.ok.inj hpb

omit [DecidableEq Sc] in
theorem inv_empty_of_none {parse : String → Except String Sc} {s : SysState Sc}
    (h : Inv parse s) (hc : s.current_shortcut = none) : s.registered = ∅ := by
  refine Finset.eq_empty_iff_forall_not_mem.2 fun sc hsc => ?_
  obtain ⟨str, hstr, _⟩ := h sc hsc
  rw [hc] at hstr
  exact Option.noConfusion hstr

omit [DecidableEq Sc] in
theorem inv_empty_of_parse_error {parse : String → Except String Sc}
    {s : SysState Sc} {str : String} {e : String}
    (h : Inv parse s) (hc : s.current_shortcut = some str)
    (hp : parse str = .error e) : s.registered = ∅ := by
  refine Finset.eq_empty_iff_forall_not_mem.2 fun sc hsc => ?_
  obtain ⟨str', hstr', hp'⟩ := h sc hsc
  rw [hc] at hstr'
  injection hstr' with h'
  subst h'
  rw [hp] at hp'
  exact Except.noConfusion hp'

omit [DecidableEq Sc] in
theorem inv_subset_singleton {parse : String → Except String Sc}
    {s : SysState Sc} {str : String} {sc0 : Sc}
    (h : Inv parse s) (hc : s.current_shortcut = some str)
    (hp : parse str = .ok sc0) : s.registered ⊆ {sc0} := by
  intro sc hsc
  obtain ⟨str', hstr', hp'⟩ := h sc hsc
  rw [hc] at hstr'
  injection hstr' with h'
  subst h'
  rw [hp] at hp'
  injection hp' with h''
  simp [h'']

theorem cleanupExisting_current (parse : String → Except String Sc)
    (o : RegOutcomes) (s : SysState Sc) :
    (cleanupExisting parse o s).1.current_shortcut = s.current_shortcut := by
  obtain ⟨cur, regd, emts⟩ := s
  rcases cur with _ | existing
  · rfl
  · unfold cleanupExisting
    dsimp only
    rcases parse existing with e | sc
    · rfl
    · rcases o.cleanup_on_shortcut with e1 | u1 <;>
        rcases o.cleanup_unregister with e2 | u2 <;> rfl

theorem cleanupExisting_registered_subset (parse : String → Except String Sc)
    (o : RegOutcomes) (s : SysState Sc) :
    (cleanupExisting parse o s).1.registered ⊆ s.registered := by
  obtain ⟨cur, regd, emts⟩ := s
  rcases cur with _ | existing
  · exact Finset.Subset.refl _
  · unfold cleanupExisting
    dsimp only
    rcases parse existing with e | sc
    · exact Finset.Subset.refl _
    · rcases o.cleanup_on_shortcut with e1 | u1 <;>
        rcases o.cleanup_unregister with e2 | u2 <;>
        first
          | exact Finset.Subset.refl _
          | exact Finset.erase_subset _ _

theorem cleanupExisting_registered_empty (parse : String → Except String Sc)
    (o : RegOutcomes) (s : SysState Sc)
    (hInv : Inv parse s) (hok : o.cleanup_unregister = .ok ()) :
    (cleanupExisting parse o s).1.registered = ∅ := by
  obtain ⟨cur, regd, emts⟩ := s
  rcases cur with _ | existing
  · exact inv_empty_of_none hInv rfl
  · unfold cleanupExisting
    dsimp only
    rcases hp : parse existing with e | sc
    · exact inv_empty_of_parse_error hInv rfl hp
    · have hsub : regd ⊆ {sc} := inv_subset_singleton hInv rfl hp
      rw [hok]
      rcases o.cleanup_on_shortcut with e1 | u1 <;>
      · refine Finset.eq_empty_iff_forall_not_mem.2 fun x hx => ?_
        exact Finset.ne_of_mem_erase hx
          (Finset.mem_singleton.1 (hsub (Finset.mem_of_mem_erase hx)))

/-- `Inv` is preserved by `register_global_hotkey` whenever the best-effort
cleanup `unregister` call succeeds. -/
theorem inv_register (parse : String → Except String Sc) (o : RegOutcomes)
    (str : String) (s : SysState Sc)
    (hInv : Inv parse s) (hok : o.cleanup_unregister = .ok ()) :
    Inv parse (register_global_hotkey parse o str s).state := by
  have hreg := cleanupExisting_registered_empty parse o s hInv hok
  unfold register_global_hotkey
  dsimp only
  rcases hp : parse str with e | psc
  · intro sc hsc
    rw [hreg] at hsc
    exact absurd hsc (Finset.not_mem_empty _)
  · rcases o.new_on_shortcut with e1 | u1
    · intro sc hsc
      rw [hreg] at hsc
      exact absurd hsc (Finset.not_mem_empty _)
    · rcases o.new_register with e2 | u2
      · intro sc hsc
        dsimp only at hsc
        rw [hreg] at hsc
        exact absurd hsc (Finset.not_mem_empty _)
      · intro sc hsc
        dsimp only at hsc
        rw [hreg] at hsc
        rw [Finset.mem_insert] at hsc
        rcases hsc with h | h
        · exact ⟨str, rfl, h ▸ hp⟩
        · exact absurd h (Finset.not_mem_empty _)

/-- `Inv` is preserved by `unregister_global_hotkey`. -/
theorem inv_unregister (parse : String → Except String Sc) (o : UnregOutcomes)
    (s : SysState Sc) (hInv : Inv parse s) :
    Inv parse (unregister_global_hotkey parse o s).state := by
  obtain ⟨cur, regd, emts⟩ := s
  rcases cur with _ | str
  · exact hInv
  · unfold unregister_global_hotkey
    dsimp only
    rcases hp : parse str with e | psc
    · have h0 : regd = ∅ := inv_empty_of_parse_error hInv rfl hp
      intro sc hsc
      dsimp only at hsc
      rw [h0] at hsc
      exact absurd hsc (Finset.not_mem_empty _)
    · have hsub : regd ⊆ {psc} := inv_subset_singleton hInv rfl hp
      rcases o.remove_handler with e1 | u1
      · exact hInv
      · rcases o.os_unregister with e2 | u2
        · exact fun sc hsc => hInv sc hsc
        · intro sc hsc
          dsimp only at hsc
          exact absurd
            (Finset.mem_singleton.1 (hsub (Finset.mem_of_mem_erase hsc)))
            (Finset.ne_of_mem_erase hsc)

/-- If `register_global_hotkey` returned an error, the stored shortcut string
is whatever it was at entry (the store is assigned only on full success). -/
theorem register_error_current (parse : String → Except String Sc)
    (o : RegOutcomes) (str : String) (s : SysState Sc) (e : HotkeyError)
    (he : (register_global_hotkey parse o str s).res = .error e) :
    (register_global_hotkey parse o str s).state.current_shortcut =
      s.current_shortcut := by
  have hcl := cleanupExisting_current parse o s
  unfold register_global_hotkey at he ⊢
  dsimp only at he ⊢
  rcases hp : parse str with e0 | psc
  · exact hcl
  · rw [hp] at he
    dsimp only at he
    rcases hi : o.new_on_shortcut with e1 | u1
    · exact hcl
    · rw [hi] at he
      dsimp only at he
      rcases hr : o.new_register with e2 | u2
      · exact hcl
      · rw [hr] at he
        exact Except.noConfusion he

/-- A successful `register_global_hotkey` implies that the new string parsed,
and that the handler-install and OS-register calls succeeded. -/
theorem register_ok_parts (parse : String → Except String Sc)
    (o : RegOutcomes) (str : String) (s : SysState Sc)
    (hok : (register_global_hotkey parse o str s).res = .ok ()) :
    (∃ psc, parse str = .ok psc) ∧ o.new_on_shortcut = .ok ()
      ∧ o.new_register = .ok () := by
  unfold register_global_hotkey at hok
  dsimp only at hok
  rcases hp : parse str with e0 | psc
  · rw [hp] at hok
    exact Except.noConfusion hok
  · rw [hp] at hok
    dsimp only at hok
    rcases hi : o.new_on_shortcut with e1 | u1
    · rw [hi] at hok
      exact Except.noConfusion hok
    · rw [hi] at hok
      dsimp only at hok
      rcases hr : o.new_register with e2 | u2
      · rw [hr] at hok
        exact Except.noConfusion hok
      · cases u1
        cases u2
        exact ⟨⟨psc, rfl⟩, rfl, rfl⟩

/-- Characterization of the full-success path of `register_global_hotkey`. -/
theorem register_ok_result (parse : String → Except String Sc)
    (o : RegOutcomes) (str : String) (psc : Sc) (s : SysState Sc)
    (hp : parse str = .ok psc) (hi : o.new_on_shortcut = .ok ())
    (hr : o.new_register = .ok ()) :
    (register_global_hotkey parse o str s).res = .ok ()
      ∧ (register_global_hotkey parse o str s).state.current_shortcut = some str
      ∧ (register_global_hotkey parse o str s).state.registered =
          insert psc (cleanupExisting parse o s).1.registered
      ∧ (register_global_hotkey parse o str s).state.emitters =
          insert psc (cleanupExisting parse o s).1.emitters
      ∧ (register_global_hotkey parse o str s).calls =
          (cleanupExisting parse o s).2 ++
            [.parseCall str, .onShortcutCall psc .emitter, .registerCall psc] := by
  unfold register_global_hotkey
  dsimp only
  rw [hp, hi, hr]
  exact ⟨rfl, rfl, rfl, rfl, rfl⟩

/-- A successful `unregister_global_hotkey` always leaves the store empty. -/
theorem unregister_ok_current (parse : String → Except String Sc)
    (o : UnregOutcomes) (s : SysState Sc)
    (hok : (unregister_global_hotkey parse o s).res = .ok ()) :
    (unregister_global_hotkey parse o s).state.current_shortcut = none := by
  obtain ⟨cur, regd, emts⟩ := s
  rcases cur with _ | str
  · rfl
  · unfold unregister_global_hotkey at hok ⊢
    dsimp only at hok ⊢
    rcases hp : parse str with e | psc
    · rfl
    · rw [hp] at hok
      dsimp only at hok
      rcases h1 : o.remove_handler with e1 | u1
      · rw [h1] at hok
        exact Except.noConfusion hok
      · rw [h1] at hok
        dsimp only at hok
        rcases h2 : o.os_unregister with e2 | u2
        · rw [h2] at hok
          exact Except.noConfusion hok
        · rfl

/-- Every state reachable with succeeding cleanup-unregister calls satisfies
the sync invariant. -/
theorem cleanReach_inv (parse : String → Except String Sc) (s : SysState Sc)
    (h : CleanReach parse s) : Inv parse s := by
  induction h with
  | init => exact fun sc hsc => absurd hsc (Finset.not_mem_empty _)
  | reg s o str hok _ ih => exact inv_register parse o str s ih hok
  | unreg s o _ ih => exact inv_unregister parse o s ih
  | query s _ ih => exact ih

/-- C1 counterexample: under the claim's failure model (every OS call may
fail), the invariant "at most one shortcut registered at any instant" is
false: a reachable state has two shortcuts registered, because the
best-effort cleanup `unregister` call in `register_global_hotkey` failed
while the new registration succeeded. -/
theorem c1_two_registered_counterexample :
    ¬ ∀ s : SysState String, Reachable parsePlus s → s.registered.card ≤ 1 := by
  intro h
  have h1 : Reachable parsePlus s1A :=
    Reachable.reg (initState String) oAllOk "Ctrl+A" Reachable.init
  have h2 : Reachable parsePlus s2AB :=
    Reachable.reg s1A oCleanupUnregFail "Ctrl+B" h1
  have hcard : s2AB.registered.card = 2 := by decide
  have := h s2AB h2
  omega

/-- C1 (amended): in every state reachable by register/unregister/get_current
sequences in which the best-effort cleanup `unregister` call of each register
succeeds, at most one shortcut is registered with the OS; a successful
register from such a state leaves exactly one shortcut registered — the parse
of the new string — with the stored string matching it; and a successful
unregister leaves zero shortcuts registered. -/
theorem c1_sync_invariant (parse : String → Except String Sc)
    (s : SysState Sc) (h : CleanReach parse s) :
    s.registered.card ≤ 1
      ∧ (∀ o str, o.cleanup_unregister = .ok () →
          (register_global_hotkey parse o str s).res = .ok () →
          ∃ psc, parse str = .ok psc
            ∧ (register_global_hotkey parse o str s).state.registered = {psc}
            ∧ (register_global_hotkey parse o str s).state.current_shortcut =
                some str)
      ∧ (∀ o, (unregister_global_hotkey parse o s).res = .ok () →
          (unregister_global_hotkey parse o s).state.registered = ∅) := by
  have hInv := cleanReach_inv parse s h
  refine ⟨inv_card_le_one hInv, ?_, ?_⟩
  · intro o str hcu hok
    obtain ⟨⟨psc, hp⟩, hi, hr⟩ := register_ok_parts parse o str s hok
    obtain ⟨-, hcur, hregd, -, -⟩ := register_ok_result parse o str psc s hp hi hr
    refine ⟨psc, hp, ?_, hcur⟩
    rw [hregd, cleanupExisting_registered_empty parse o s hInv hcu]
    simp
  · intro o hok
    exact inv_empty_of_none (inv_unregister parse o s hInv)
      (unregister_ok_current parse o s hok)

/-- Witness for C1 (amended): the invariant instantiated at the clean-reachable
state left by one fully successful registration. -/
theorem c1_sync_invariant_witness : s1A.registered.card ≤ 1 :=
  (c1_sync_invariant parsePlus s1A
    (CleanReach.reg (initState String) oAllOk "Ctrl+A" rfl CleanReach.init)).1

/-- C2 counterexample: with `"bad"` stored and failing to re-parse,
`unregister_global_hotkey` does NOT leave the stored value untouched — it
clears it, and a following `get_current` returns `Ok(None)`, not
`Ok(Some "bad")`. -/
theorem c2_cleared_counterexample :
    sBadStored.current_shortcut = some "bad"
      ∧ (parsePlus "bad").isOk = false
      ∧ (unregister_global_hotkey parsePlus uAllOk sBadStored).state.current_shortcut
          = none
      ∧ (get_current_hotkey
            (unregister_global_hotkey parsePlus uAllOk sBadStored).state).res
          ≠ .ok (some "bad") := by
  refine ⟨rfl, rfl, rfl, ?_⟩
  decide

/-- C2 (amended): for every state in which a shortcut string is stored and
that string fails to re-parse, `unregister` clears the stored shortcut and
returns `Ok`, so a subsequent `get_current` returns `Ok(None)`. -/
theorem c2_unparseable_clears (parse : String → Except String Sc)
    (o : UnregOutcomes) (s : SysState Sc) (str e : String)
    (hcur : s.current_shortcut = some str) (hp : parse str = .error e) :
    (unregister_global_hotkey parse o s).res = .ok ()
      ∧ (unregister_global_hotkey parse o s).state.current_shortcut = none
      ∧ (get_current_hotkey (unregister_global_hotkey parse o s).state).res =
          .ok none := by
  obtain ⟨cur, regd, emts⟩ := s
  dsimp only at hcur
  subst hcur
  unfold unregister_global_hotkey
  dsimp only
  rw [hp]
  exact ⟨rfl, rfl, rfl⟩

/-- Witness for C2 (amended) at the concrete unparseable stored state. -/
theorem c2_unparseable_clears_witness :
    (unregister_global_hotkey parsePlus uAllOk sBadStored).res = .ok ()
      ∧ (unregister_global_hotkey parsePlus uAllOk sBadStored).state.current_shortcut
          = none
      ∧ (get_current_hotkey
            (unregister_global_hotkey parsePlus uAllOk sBadStored).state).res =
          .ok none :=
  c2_unparseable_clears parsePlus uAllOk sBadStored "bad" "unknown key bad"
    rfl (by decide)

/-- C3: for every shortcut text `s` the OS parser accepts, when the
handler-install and OS-register calls succeed, `register(s)` returns `Ok` and
an immediately following `get_current` returns `Ok(Some s)` with the exact
input string. -/
theorem c3_register_then_get_current (parse : String → Except String Sc)
    (o : RegOutcomes) (str : String) (psc : Sc) (s : SysState Sc)
    (hp : parse str = .ok psc) (hi : o.new_on_shortcut = .ok ())
    (hr : o.new_register = .ok ()) :
    (register_global_hotkey parse o str s).res = .ok ()
      ∧ (get_current_hotkey (register_global_hotkey parse o str s).state).res =
          .ok (some str) := by
  obtain ⟨h1, h2, -, -, -⟩ := register_ok_result parse o str psc s hp hi hr
  refine ⟨h1, ?_⟩
  unfold get_current_hotkey
  rw [h2]

/-- Witness for C3 at `"Ctrl+A"` from the initial state. -/
theorem c3_register_then_get_current_witness :
    (register_global_hotkey parsePlus oAllOk "Ctrl+A" (initState String)).res =
        .ok ()
      ∧ (get_current_hotkey
            (register_global_hotkey parsePlus oAllOk "Ctrl+A"
              (initState String)).state).res = .ok (some "Ctrl+A") :=
  c3_register_then_get_current parsePlus oAllOk "Ctrl+A" "Ctrl+A"
    (initState String) (by decide) rfl rfl

/-- C4: for every input string the OS parser rejects, `register` returns an
error whose message starts with "Invalid shortcut format: " and leaves the
stored shortcut untouched; in particular a `None` store stays `None`. -/
theorem c4_invalid_format (parse : String → Except String Sc)
    (o : RegOutcomes) (str e : String) (s : SysState Sc)
    (hp : parse str = .error e) :
    (∃ rest, (register_global_hotkey parse o str s).res =
        .error ⟨"Invalid shortcut format: " ++ rest⟩)
      ∧ (register_global_hotkey parse o str s).state.current_shortcut =
          s.current_shortcut
      ∧ (s.current_shortcut = none →
          (register_global_hotkey parse o str s).state.current_shortcut = none) := by
  have hcl := cleanupExisting_current parse o s
  unfold register_global_hotkey
  dsimp only
  rw [hp]
  exact ⟨⟨e, rfl⟩, hcl, fun hn => hcl.trans hn⟩

/-- Witness for C4 at the rejected string `"bad"` from the initial state. -/
theorem c4_invalid_format_witness :
    (∃ rest, (register_global_hotkey parsePlus oAllOk "bad"
        (initState String)).res =
          .error ⟨"Invalid shortcut format: " ++ rest⟩)
      ∧ (register_global_hotkey parsePlus oAllOk "bad"
          (initState String)).state.current_shortcut =
            (initState String).current_shortcut
      ∧ ((initState String).current_shortcut = none →
          (register_global_hotkey parsePlus oAllOk "bad"
            (initState String)).state.current_shortcut = none) :=
  c4_invalid_format parsePlus oAllOk "bad" "unknown key bad"
    (initState String) (by decide)

/-- C5: with a stored string that re-parses, a failing handler-removal call
makes `unregister` return an error prefixed "Failed to remove handler: ", and
a failing OS `unregister` call makes it return an error prefixed
"Failed to unregister: "; in both cases the stored shortcut is unchanged. -/
theorem c5_unregister_error_paths (parse : String → Except String Sc)
    (o : UnregOutcomes) (str e : String) (psc : Sc) (s : SysState Sc)
    (hcur : s.current_shortcut = some str) (hp : parse str = .ok psc) :
    (o.remove_handler = .error e →
      (unregister_global_hotkey parse o s).res =
          .error ⟨"Failed to remove handler: " ++ e⟩
        ∧ (unregister_global_hotkey parse o s).state.current_shortcut =
            s.current_shortcut)
    ∧ (o.remove_handler = .ok () → o.os_unregister = .error e →
      (unregister_global_hotkey parse o s).res =
          .error ⟨"Failed to unregister: " ++ e⟩
        ∧ (unregister_global_hotkey parse o s).state.current_shortcut =
            s.current_shortcut) := by
  obtain ⟨cur, regd, emts⟩ := s
  dsimp only at hcur
  subst hcur
  unfold unregister_global_hotkey
  dsimp only
  rw [hp]
  constructor
  · intro h1
    rw [h1]
    exact ⟨rfl, rfl⟩
  · intro h1 h2
    rw [h1, h2]
    exact ⟨rfl, rfl⟩

/-- Witness for C5: the handler-removal failure path at a state holding
`"Ctrl+A"`. -/
theorem c5_unregister_error_paths_witness :
    (unregister_global_hotkey parsePlus uRemoveFail s1A).res =
        .error ⟨"Failed to remove handler: " ++ "no handler"⟩
      ∧ (unregister_global_hotkey parsePlus uRemoveFail s1A).state.current_shortcut
          = s1A.current_shortcut :=
  (c5_unregister_error_paths parsePlus uRemoveFail "Ctrl+A" "no handler"
    "Ctrl+A" s1A (by decide) (by decide)).1 rfl

/-- C6: from a state with no stored shortcut, `unregister` returns `Ok(())`
as a no-op, makes no OS-subsystem calls, and a following `get_current` still
returns `Ok(None)`. -/
theorem c6_unregister_noop (parse : String → Except String Sc)
    (o : UnregOutcomes) (s : SysState Sc) (h : s.current_shortcut = none) :
    (unregister_global_hotkey parse o s).res = .ok ()
      ∧ (unregister_global_hotkey parse o s).state = s
      ∧ (unregister_global_hotkey parse o s).calls = []
      ∧ (get_current_hotkey (unregister_global_hotkey parse o s).state).res =
          .ok none := by
  obtain ⟨cur, regd, emts⟩ := s
  dsimp only at h
  subst h
  exact ⟨rfl, rfl, rfl, rfl⟩

/-- Witness for C6 at the initial state. -/
theorem c6_unregister_noop_witness :
    (unregister_global_hotkey parsePlus uAllOk (initState String)).res = .ok ()
      ∧ (unregister_global_hotkey parsePlus uAllOk (initState String)).state =
          initState String
      ∧ (unregister_global_hotkey parsePlus uAllOk (initState String)).calls = []
      ∧ (get_current_hotkey
            (unregister_global_hotkey parsePlus uAllOk
              (initState String)).state).res = .ok none :=
  c6_unregister_noop parsePlus uAllOk (initState String) rfl

/-- C7: failures of the best-effort cleanup in step 2 of `register` never by
themselves make `register` return an error: the returned result is the same
for any cleanup outcomes and any prior state, depending only on the
parse/handler-install/OS-register outcomes for the new shortcut. -/
theorem c7_cleanup_failures_swallowed (parse : String → Except String Sc)
    (o o' : RegOutcomes) (str : String) (s s' : SysState Sc)
    (hi : o.new_on_shortcut = o'.new_on_shortcut)
    (hr : o.new_register = o'.new_register) :
    (register_global_hotkey parse o str s).res =
      (register_global_hotkey parse o' str s').res := by
  unfold register_global_hotkey
  dsimp only
  rcases parse str with e | psc
  · rfl
  · rw [hi, hr]
    rcases o'.new_on_shortcut with e1 | u1
    · rfl
    · rcases o'.new_register with e2 | u2 <;> rfl

/-- Witness for C7: a run whose cleanup `unregister` call fails returns the
same result as one whose cleanup fully succeeds. -/
theorem c7_cleanup_failures_swallowed_witness :
    (register_global_hotkey parsePlus oCleanupUnregFail "Ctrl+B" s1A).res =
      (register_global_hotkey parsePlus oAllOk "Ctrl+B" s1A).res :=
  c7_cleanup_failures_swallowed parsePlus oCleanupUnregFail oAllOk "Ctrl+B"
    s1A s1A rfl rfl

omit [DecidableEq Sc] in
/-- C8: for every state, `get_current` never returns `Err`: it returns `Ok`
of exactly the stored optional shortcut string and leaves the state
unchanged. -/
theorem c8_get_current_total (s : SysState Sc) :
    (get_current_hotkey s).res = .ok s.current_shortcut
      ∧ (get_current_hotkey s).state = s :=
  ⟨rfl, rfl⟩

/-- C9: the callback a successful `register` installs for the parsed shortcut
is the emitting one, which emits exactly one "hotkey-pressed" event per press
notification and exactly one "hotkey-released" event per release
notification, and emits nothing else. -/
theorem c9_emitter_events (parse : String → Except String Sc)
    (o : RegOutcomes) (str : String) (psc : Sc) (s : SysState Sc)
    (hp : parse str = .ok psc)
    (hok : (register_global_hotkey parse o str s).res = .ok ()) :
    psc ∈ (register_global_hotkey parse o str s).state.emitters
      ∧ OSCall.onShortcutCall psc .emitter ∈
          (register_global_hotkey parse o str s).calls
      ∧ handlerEmits .emitter .Pressed = ["hotkey-pressed"]
      ∧ handlerEmits .emitter .Released = ["hotkey-released"]
      ∧ (∀ n ev, ev ∈ handlerEmits .emitter n →
          ev = "hotkey-pressed" ∨ ev = "hotkey-released") := by
  obtain ⟨⟨psc', hp'⟩, hi, hr⟩ := register_ok_parts parse o str s hok
  rw [hp] at hp'
  injection hp' with hpe
  subst hpe
  obtain ⟨-, -, -, hemit, hcalls⟩ := register_ok_result parse o str psc s hp hi hr
  refine ⟨?_, ?_, rfl, rfl, ?_⟩
  · rw [hemit]
    exact Finset.mem_insert_self _ _
  · rw [hcalls]
    exact List.mem_append_right _ (by simp)
  · intro n ev hev
    rcases n with _ | _
    · exact Or.inl (List.mem_singleton.1 hev)
    · exact Or.inr (List.mem_singleton.1 hev)

/-- Witness for C9 after registering `"Ctrl+K"` from the initial state. -/
theorem c9_emitter_events_witness :
    "Ctrl+K" ∈ (register_global_hotkey parsePlus oAllOk "Ctrl+K"
        (initState String)).state.emitters
      ∧ OSCall.onShortcutCall "Ctrl+K" .emitter ∈
          (register_global_hotkey parsePlus oAllOk "Ctrl+K"
            (initState String)).calls
      ∧ handlerEmits .emitter .Pressed = ["hotkey-pressed"]
      ∧ handlerEmits .emitter .Released = ["hotkey-released"]
      ∧ (∀ n ev, ev ∈ handlerEmits .emitter n →
          ev = "hotkey-pressed" ∨ ev = "hotkey-released") :=
  c9_emitter_events parsePlus oAllOk "Ctrl+K" "Ctrl+K" (initState String)
    (by decide) (by decide)

/-- C10: whenever `register` returns an error — at parse, handler-install or
OS-register — the stored shortcut is exactly the value it held at entry; the
store is assigned only on the full-success path. -/
theorem c10_register_error_preserves_store (parse : String → Except String Sc)
    (o : RegOutcomes) (str : String) (s : SysState Sc) (e : HotkeyError)
    (he : (register_global_hotkey parse o str s).res = .error e) :
    (register_global_hotkey parse o str s).state.current_shortcut =
      s.current_shortcut :=
  register_error_current parse o str s e he

/-- Witness for C10 at a rejected input from a state holding `"Ctrl+A"`. -/
theorem c10_register_error_preserves_store_witness :
    (register_global_hotkey parsePlus oAllOk "bad" s1A).state.current_shortcut =
      s1A.current_shortcut :=
  c10_register_error_preserves_store parsePlus oAllOk "bad" s1A
    ⟨"Invalid shortcut format: unknown key bad"⟩ (by decide)

end GlobalShortcut
